import Mathlib

/-!
Verification of the workspace lifecycle reconciliation engine
(`components/ws-manager-mk2/controllers/timeout_controller.go`):
the status reconciler (`updateWorkspaceStatus`, `extractFailure`,
`extractFailureFromLogs`) and the timeout reconciler
(`NewTimeoutReconciler`, `Reconcile`, `isWorkspaceTimedOut`,
`formatDuration`).

Modelling conventions:
* Instants and durations are `Int` nanoseconds (Go `time.Time` /
  `time.Duration`); the current instant is passed explicitly wherever the
  source calls `time.Since` or `metav1.Now()`.
* Phases, condition types and condition statuses are `String`s, exactly as
  in the Kubernetes CRD (`WorkspacePhase` and `metav1.ConditionStatus` are
  string types; the zero phase is `""`).
* Functions that mutate the `Workspace` in place in Go are modelled as
  pure functions returning the updated `Workspace`.
-/

namespace WsManager

/-- `metav1.Condition`: named condition with status, transition timestamp,
message and reason. -/
structure Condition where
  type : String
  status : String
  lastTransitionTime : Int
  message : String
  reason : String
deriving DecidableEq, Repr

/-- `metav1.ConditionTrue`. -/
def ConditionTrue : String := "True"

/-- `metav1.ConditionFalse`. -/
def ConditionFalse : String := "False"

/-- Modelled from the spec: the workspace condition type names exported by
the CRD package (`workspacev1.WorkspaceCondition*`), which is not part of
the sources; the spec lists the types `Deployed`, `Failed`, `Timeout`,
`BackupComplete`, `BackupFailure`, `ContentReady`, `Closed`,
`UserActivity`. -/
def WorkspaceConditionFailed : String := "Failed"

/-- Modelled from the spec: see `WorkspaceConditionFailed`. -/
def WorkspaceConditionTimeout : String := "Timeout"

/-- Modelled from the spec: see `WorkspaceConditionFailed`. -/
def WorkspaceConditionDeployed : String := "Deployed"

/-- Modelled from the spec: see `WorkspaceConditionFailed`. -/
def WorkspaceConditionBackupComplete : String := "BackupComplete"

/-- Modelled from the spec: see `WorkspaceConditionFailed`. -/
def WorkspaceConditionBackupFailure : String := "BackupFailure"

/-- Modelled from the spec: see `WorkspaceConditionFailed`. -/
def WorkspaceConditionContentReady : String := "ContentReady"

/-- Modelled from the spec: see `WorkspaceConditionFailed`. -/
def WorkspaceConditionClosed : String := "Closed"

/-- Modelled from the spec: see `WorkspaceConditionFailed`. -/
def WorkspaceConditionUserActivity : String := "UserActivity"

/-- `workspacev1.WorkspacePhase` constants (string-typed in the CRD). -/
def WorkspacePhasePending : String := "Pending"

def WorkspacePhaseCreating : String := "Creating"

def WorkspacePhaseInitializing : String := "Initializing"

def WorkspacePhaseRunning : String := "Running"

def WorkspacePhaseStopping : String := "Stopping"

def WorkspacePhaseStopped : String := "Stopped"

def WorkspacePhaseUnknown : String := "Unknown"

/-- `corev1.PodPending` etc. are likewise string constants. -/
def PodPending : String := "Pending"

def PodRunning : String := "Running"

def PodSucceeded : String := "Succeeded"

def PodFailed : String := "Failed"

def PodUnknown : String := "Unknown"

/-- `corev1.ContainerStateWaiting`. -/
structure WaitingState where
  reason : String
  message : String
deriving DecidableEq, Repr

/-- `corev1.ContainerStateTerminated` (the fields read by the source). -/
structure TerminatedState where
  exitCode : Int
  reason : String
  message : String
deriving DecidableEq, Repr

/-- `corev1.ContainerState`: at most one of waiting/running/terminated is
set; the source only inspects `Waiting` and `Terminated`. -/
structure ContainerState where
  waiting : Option WaitingState
  terminated : Option TerminatedState
deriving DecidableEq, Repr

/-- `corev1.ContainerStatus` (the fields read by the source). -/
structure ContainerStatus where
  name : String
  ready : Bool
  state : ContainerState
  lastTerminationState : ContainerState
deriving DecidableEq, Repr

/-- `corev1.Pod`, flattened to the meta/spec/status fields the source
reads: `ObjectMeta.DeletionTimestamp`, `ObjectMeta.Finalizers`,
`ObjectMeta.Name`, `Spec.NodeName`, `Status.Phase`, `Status.Reason`,
`Status.Message`, `Status.ContainerStatuses`, `Status.HostIP`,
`Status.PodIP`. -/
structure Pod where
  name : String
  deletionTimestamp : Option Int
  finalizers : List String
  nodeName : String
  phase : String
  reason : String
  message : String
  containerStatuses : List ContainerStatus
  hostIP : String
  podIP : String
deriving DecidableEq, Repr

/-- `workspacev1.WorkspaceRuntimeStatus`. -/
structure WorkspaceRuntimeStatus where
  nodeName : String
  hostIP : String
  podIP : String
  podName : String
deriving DecidableEq, Repr

/-- `workspacev1.WorkspaceStatus` (the fields the reconcilers touch or
read; `Headless` lives on the status in the CRD, cf.
`workspace.Status.Headless` in the source). -/
structure WorkspaceStatus where
  phase : String
  conditions : List Condition
  runtime : Option WorkspaceRuntimeStatus
  headless : Bool
deriving DecidableEq, Repr

/-- `workspacev1.WorkspaceSpec` (only `Spec.Timeout.Time`, the optional
custom timeout override, is read by the source; `*metav1.Duration`
modelled as `Option Int`). -/
structure WorkspaceSpec where
  timeout : Option Int
deriving DecidableEq, Repr

/-- `workspacev1.Workspace`: `ObjectMeta.CreationTimestamp` plus spec and
status. -/
structure Workspace where
  creationTimestamp : Int
  spec : WorkspaceSpec
  status : WorkspaceStatus
deriving DecidableEq, Repr

/-- `config.WorkspaceTimeoutConfiguration` (durations in nanoseconds). -/
structure WorkspaceTimeoutConfiguration where
  Initialization : Int
  TotalStartup : Int
  RegularWorkspace : Int
  HeadlessWorkspace : Int
  MaxLifetime : Int
  AfterClose : Int
  Stopping : Int
  ContentFinalization : Int
deriving DecidableEq, Repr

/-- `config.Configuration` (the fields the timeout reconciler reads). -/
structure Configuration where
  timeouts : WorkspaceTimeoutConfiguration
  heartbeatInterval : Int
deriving DecidableEq, Repr

/-- Modelled from the spec: `conditionPresentAndTrue` (defined outside the
sampled sources) — whether the condition of the given type is present
with status `True`. -/
def conditionPresentAndTrue (conds : List Condition) (tpe : String) : Bool :=
  match conds.find? (fun c => c.type == tpe) with
  | some c => c.status == ConditionTrue
  | none => false

/-- Modelled from the spec: `conditionWithStatusAndReson` (defined outside
the sampled sources) — whether the condition of the given type is present
with the given boolean status (`True`/`False`) and reason. -/
def conditionWithStatusAndReson (conds : List Condition) (tpe : String)
    (status : Bool) (reason : String) : Bool :=
  match conds.find? (fun c => c.type == tpe) with
  | some c =>
      c.status == (if status then ConditionTrue else ConditionFalse) &&
      c.reason == reason
  | none => false

/-- Modelled from the spec: `AddUniqueCondition` (defined outside the
sampled sources) — the single mutation entry point of the condition set:
an idempotent upsert keyed by `type`; appending a condition of a type that
already exists with identical status and message is a no-op (the old
transition timestamp is kept), otherwise the existing condition of that
type is replaced, and a condition of a fresh type is appended. -/
def AddUniqueCondition (conds : List Condition) (cond : Condition) : List Condition :=
  if conds.any (fun c =>
      c.type == cond.type && c.status == cond.status && c.message == cond.message) then
    conds
  else if conds.any (fun c => c.type == cond.type) then
    conds.map (fun c => if c.type == cond.type then cond else c)
  else
    conds ++ [cond]

/-- Modelled from the spec: `gitpodPodFinalizerName` (defined outside the
sampled sources) — the disposal finalizer marker on the pod. -/
def gitpodPodFinalizerName : String := "gitpod.io/finalizer"

/-- `isPodBeingDeleted`: the pod is being deleted iff its
deletionTimestamp is set. -/
def isPodBeingDeleted (pod : Pod) : Bool :=
  pod.deletionTimestamp.isSome

/-- `time.Minute` in nanoseconds. -/
def minuteNs : Int := 60000000000

/-- `time.Hour` in nanoseconds. -/
def hourNs : Int := 3600000000000

/-- `d.Round(time.Minute)` of Go's `time.Duration`: round to the nearest
multiple of a minute, ties away from zero (`%` is Go's truncated
remainder; the int64 overflow guards of the Go implementation are
immaterial over unbounded `Int`). -/
def durationRoundMinute (d : Int) : Int :=
  let r := d.tmod minuteNs
  if d < 0 then
    let r' := -r
    if r' + r' < minuteNs then d + r' else d - minuteNs + r'
  else
    if r + r < minuteNs then d - r else d + minuteNs - r

/-- Go's `fmt.Sprintf("%02d", n)`: decimal, left-padded with `0` to width
two. -/
def pad2 (n : Int) : String :=
  if (toString n).length < 2 then "0" ++ toString n else toString n

/-- `formatDuration`: round to the minute, then print whole hours and
minutes as `%02dh%02dm` (Go integer division truncates toward zero). -/
def formatDuration (d0 : Int) : String :=
  let d := durationRoundMinute d0
  let h := d.tdiv hourNs
  let d' := d - h * hourNs
  let m := d'.tdiv minuteNs
  pad2 h ++ "h" ++ pad2 m ++ "m"

/-- The `activity` string constants of the source. -/
def activityInit : String := "initialization"

def activityStartup : String := "startup"

def activityCreatingContainers : String := "creating containers"

def activityRunningHeadless : String := "running the headless workspace"

def activityNone : String := "period of inactivity"

def activityMaxLifetime : String := "maximum lifetime"

def activityClosed : String := "after being closed"

def activityStopping : String := "stopping"

def activityBackup : String := "backup"

/-- The `decide` closure inside `isWorkspaceTimedOut`:
`inactivity := time.Since(start)`; below the configured duration the
reason is empty, otherwise it reports the activity with the elapsed and
configured durations. (The Go closure's error result is always `nil` and
is dropped.) `now` stands for the current instant of `time.Since`. -/
def timeoutDecide (now start timeout : Int) (act : String) : String :=
  let inactivity := now - start
  if inactivity < timeout then ""
  else
    "workspace timed out after " ++ act ++ " (" ++ formatDuration inactivity ++
      ") took longer than " ++ formatDuration timeout

/-- `getWorkspaceActivity`: the transition time of the first `UserActivity`
condition, if any. -/
def getWorkspaceActivity (ws : Workspace) : Option Int :=
  match ws.status.conditions.find? (fun c => c.type == WorkspaceConditionUserActivity) with
  | some c => some c.lastTransitionTime
  | none => none

/-- `isWorkspaceTimedOut`: the pure timeout policy, a function of the
workspace phase, the timestamps, the pod and the timeout configuration.
`now` is the current instant (`time.Since`). -/
def isWorkspaceTimedOut (now : Int) (ws : Workspace) (pod : Pod)
    (timeouts : WorkspaceTimeoutConfiguration) : String :=
  let phase := ws.status.phase
  let start := ws.creationTimestamp
  let isClosed := conditionPresentAndTrue ws.status.conditions WorkspaceConditionClosed
  if phase = WorkspacePhasePending then
    timeoutDecide now start timeouts.Initialization activityInit
  else if phase = WorkspacePhaseInitializing then
    timeoutDecide now start timeouts.TotalStartup activityStartup
  else if phase = WorkspacePhaseCreating then
    timeoutDecide now start timeouts.TotalStartup activityCreatingContainers
  else if phase = WorkspacePhaseRunning then
    -- First check is always for the max lifetime.
    let msg := timeoutDecide now start timeouts.MaxLifetime activityMaxLifetime
    if msg ≠ "" then msg
    else if ws.status.headless then
      -- headless: timeout = HeadlessWorkspace, lastActivity = start,
      -- then the custom override (ws.Spec.Timeout.Time) still applies
      let timeout := match ws.spec.timeout with
        | some ctv => ctv
        | none => timeouts.HeadlessWorkspace
      timeoutDecide now start timeout activityRunningHeadless
    else
      match getWorkspaceActivity ws with
      | none =>
          -- up and running, but the user has never produced any activity
          timeoutDecide now start timeouts.TotalStartup activityNone
      | some lastActivity =>
          if isClosed then
            timeoutDecide now lastActivity timeouts.AfterClose activityClosed
          else
            let timeout := match ws.spec.timeout with
              | some ctv => ctv
              | none => timeouts.RegularWorkspace
            timeoutDecide now lastActivity timeout activityNone
  else if phase = WorkspacePhaseStopping then
    match pod.deletionTimestamp with
    | some dt =>
        if conditionPresentAndTrue ws.status.conditions WorkspaceConditionBackupComplete then
          timeoutDecide now dt timeouts.ContentFinalization activityBackup
        else
          timeoutDecide now dt timeouts.Stopping activityStopping
    | none =>
        -- pods that have not been deleted have never timed out
        ""
  else
    -- the only other phases we can be in is stopped which is pointless to time out
    ""

/-- `containerKilledExitCode`: exit code Kubernetes uses for a container
killed by the system. -/
def containerKilledExitCode : Int := 137

/-- `containerUnknownExitCode`: exit code containerd uses when it cannot
determine the cause/exit status of a stopped container. -/
def containerUnknownExitCode : Int := 255

/-- JSON insignificant whitespace skipping, as `encoding/json` does before
a value. -/
def skipWs : List Char → List Char
  | [] => []
  | c :: cs => if c = ' ' ∨ c = '\t' ∨ c = '\n' ∨ c = '\r' then skipWs cs else c :: cs

/-- Accumulator loop for `parseStr`: read characters up to the closing
quote (escape sequences are not modelled and make the line unparsable). -/
def parseStrAux : List Char → List Char → Option (String × List Char)
  | [], _ => none
  | c :: cs, acc =>
      if c = '"' then some (String.mk acc.reverse, cs)
      else if c = '\\' then none
      else parseStrAux cs (c :: acc)

/-- Parse a JSON string literal. -/
def parseStr (l : List Char) : Option (String × List Char) :=
  match l with
  | '"' :: rest => parseStrAux rest []
  | _ => none

/-- Parse one `"key": "value"` member of a JSON object. -/
def parsePair (l : List Char) : Option ((String × String) × List Char) :=
  match parseStr (skipWs l) with
  | none => none
  | some (k, r) =>
      match skipWs r with
      | ':' :: r' =>
          match parseStr (skipWs r') with
          | none => none
          | some (v, r2) => some ((k, v), r2)
      | _ => none

/-- Parse a non-empty comma-separated member list (fuel-guarded; the fuel
is instantiated with more characters than the input has, so it never runs
out on inputs the grammar accepts). -/
def parsePairsAux : Nat → List Char → Option (List (String × String) × List Char)
  | 0, _ => none
  | fuel + 1, l =>
      match parsePair l with
      | none => none
      | some (p, r) =>
          match skipWs r with
          | ',' :: r' =>
              match parsePairsAux fuel r' with
              | none => none
              | some (ps, r2) => some (p :: ps, r2)
          | r2 => some ([p], r2)

/-- Last-wins key lookup, as `encoding/json` keeps the last duplicate
member; `none` when the member is absent from the object. -/
def lookupLastOpt (ps : List (String × String)) (key : String) : Option String :=
  ps.foldl (fun acc p => if p.1 = key then some p.2 else acc) none

/-- Parse a flat JSON object of string members into the present fields of
the `(error, message)` record: `none` for a member that does not occur in
the line. -/
def parseMsgCore (l : List Char) : Option (Option String × Option String) :=
  match l with
  | '\x7b' :: r =>
      match skipWs r with
      | '\x7d' :: r2 => if skipWs r2 = [] then some (none, none) else none
      | r1 =>
          match parsePairsAux (r1.length + 1) r1 with
          | none => none
          | some (ps, r2) =>
              match skipWs r2 with
              | '\x7d' :: r3 =>
                  if skipWs r3 = [] then
                    some (lookupLastOpt ps "error", lookupLastOpt ps "message")
                  else none
              | _ => none
  | _ => none

/-- Modelled from the spec: `json.Unmarshal` of one log line into the
struct `\x7bError, Message string\x7d` (`encoding/json` is the standard
library, outside this repository). The line parses iff it is a flat JSON
object whose members are unescaped string literals; on success the result
carries, per field, `some` value when the member occurs in the line and
`none` when it is absent — the caller merges the result into the shared
record, so an absent member leaves the previously unmarshalled value
untouched, exactly as `encoding/json` leaves absent struct fields alone.
A failing unmarshal is modelled as leaving the record unchanged. -/
def parseMsgLine (l : List Char) : Option (Option String × Option String) :=
  parseMsgCore (skipWs l)

/-- `bytes.LastIndex(l, [0x0a])`: index of the last newline (`none` for
Go's `-1`). -/
def lastNLIdx : List Char → Option Nat
  | [] => none
  | c :: cs =>
      match lastNLIdx cs with
      | some i => some (i + 1)
      | none => if c = '\n' then some 0 else none

theorem lastNLIdx_lt_length :
    ∀ (l : List Char) (n : Nat), lastNLIdx l = some n → n < l.length := by
  intro l
  induction l with
  | nil => intro n h; simp [lastNLIdx] at h
  | cons c cs ih =>
      intro n h
      simp only [lastNLIdx] at h
      cases hcs : lastNLIdx cs with
      | some i =>
          rw [hcs] at h
          simp only [Option.some.injEq] at h
          have := ih i hcs
          simp only [List.length_cons]
          omega
      | none =>
          rw [hcs] at h
          by_cases hc : c = '\n'
          · simp [hc] at h
            simp only [List.length_cons]
            omega
          · simp [hc] at h

/-- The index loop of `extractFailureFromLogs`, generic in the line
parser: entered with `idx` the index of the last newline (`idx > 0`);
`nidx` is the index of the last newline strictly before `idx` (`0` when
there is none, as Go clamps `-1` to `0`); the scanned line is
`logs[nidx:idx]`; the loop continues while `idx > 0` and falls back to
the raw input bytes. `msg` is the `(error, message)` record that Go
declares once, outside the loop: a successful unmarshal overwrites only
the fields present in the line (absent fields keep their values from
earlier-scanned lines), a failing unmarshal skips the line leaving the
record as is; the loop returns as soon as the accumulated message is
non-empty, suffixed with the accumulated error when that is non-empty.
The loop index decreases strictly, so the recursion is guarded by a fuel
that is never exhausted when it starts at `idx` (see
`extractLoopP_eq_scan`). -/
def extractLoopP (parse : List Char → Option (Option String × Option String))
    (logs : List Char) : Nat → Nat → String × String → String
  | 0, _, _ => String.mk logs
  | fuel + 1, idx, msg =>
      let nidx := (lastNLIdx (logs.take idx)).getD 0
      match parse ((logs.take idx).drop nidx) with
      | none =>
          if nidx = 0 then String.mk logs
          else extractLoopP parse logs fuel nidx msg
      | some fields =>
          let msg := (fields.1.getD msg.1, fields.2.getD msg.2)
          if msg.2 = "" then
            (if nidx = 0 then String.mk logs
              else extractLoopP parse logs fuel nidx msg)
          else if msg.1 = "" then msg.2
          else msg.2 ++ ": " ++ msg.1

/-- `extractFailureFromLogs`, generic in the line parser: scan backward
from the last newline with the shared record at its zero value; when the
input has no newline, or its only newline is the first byte, the loop
never runs and the raw input is returned. -/
def extractFailureFromLogsP (parse : List Char → Option (Option String × Option String))
    (logs : String) : String :=
  match lastNLIdx logs.data with
  | none => logs
  | some idx => if 0 < idx then extractLoopP parse logs.data idx idx ("", "") else logs

/-- `extractFailureFromLogs`: extract the last error message from a
workspace container's log output. -/
def extractFailureFromLogs (logs : String) : String :=
  extractFailureFromLogsP parseMsgLine logs

/-- The body of the container-status loop of `extractFailure` for a
single container: `none` means fall through to the next container, `some`
is the function's early return of `(failure, phase override)`; a `none`
phase override leaves the phase to the caller, and the `some ""` override
is Go's zero-valued `WorkspacePhase` pointer taken in the terminated
branch while the pod is being deleted. -/
def extractFailureContainer (ws : Workspace) (pod : Pod)
    (cs : ContainerStatus) : Option (String × Option String) :=
  let pullRes : Option (String × Option String) :=
    match cs.state.waiting with
    | some w =>
        if w.reason = "ImagePullBackOff" ∨ w.reason = "ErrImagePull" then
          let res : Option String :=
            if isPodBeingDeleted pod then none else some WorkspacePhaseCreating
          some ("cannot pull image: " ++ w.message, res)
        else none
    | none => none
  match pullRes with
  | some r => some r
  | none =>
      let terminationState := match cs.state.terminated with
        | some t => some t
        | none => cs.lastTerminationState.terminated
      match terminationState with
      | none => none
      | some t =>
          if t.exitCode ≠ 0 ∧ t.message ≠ "" then
            let phase := if isPodBeingDeleted pod then "" else WorkspacePhaseRunning
            some (extractFailureFromLogs t.message, some phase)
          else if t.reason = "Error" then
            if ¬ isPodBeingDeleted pod ∧ t.exitCode ≠ containerKilledExitCode then
              some ("container " ++ cs.name ++ " ran with an error: exit code " ++
                toString t.exitCode, some WorkspacePhaseRunning)
            else none
          else if t.reason = "Completed" ∧ ¬ isPodBeingDeleted pod then
            if ws.status.headless then some ("", none)
            else
              some ("container " ++ cs.name ++
                " completed; containers of a workspace pod are not supposed to do that", none)
          else if ¬ isPodBeingDeleted pod ∧ t.exitCode ≠ containerUnknownExitCode then
            some ("workspace container " ++ cs.name ++
              " terminated for an unknown reason: (" ++ t.reason ++ ") " ++ t.message,
              some WorkspacePhaseUnknown)
          else none

/-- The container-status loop of `extractFailure`: first early return
wins; falling off the loop yields `("", none)`. -/
def extractFailureLoop (ws : Workspace) (pod : Pod) :
    List ContainerStatus → String × Option String
  | [] => ("", none)
  | cs :: rest =>
      match extractFailureContainer ws pod cs with
      | some r => r
      | none => extractFailureLoop ws pod rest

/-- `extractFailure`: pod failure reason and possibly a forced phase;
`("", none)` when the pod has not failed. -/
def extractFailure (ws : Workspace) (pod : Pod) : String × Option String :=
  if pod.phase = PodFailed ∧ (pod.reason ≠ "" ∨ pod.message ≠ "") then
    (pod.reason ++ ": " ++ pod.message, none)
  else
    extractFailureLoop ws pod pod.containerStatuses

/-- `workspace.Status.Phase = p`. -/
def setPhase (ws : Workspace) (p : String) : Workspace :=
  { ws with status := { ws.status with phase := p } }

/-- `workspace.Status.Conditions = conds`. -/
def setConditions (ws : Workspace) (conds : List Condition) : Workspace :=
  { ws with status := { ws.status with conditions := conds } }

/-- The runtime fill-in block of `updateWorkspaceStatus`: allocate the
runtime status when absent, then fill node name, host IP, pod IP and pod
name first-write-wins. -/
def fillRuntime (ws : Workspace) (pod : Pod) : Workspace :=
  let rt := match ws.status.runtime with
    | some r => r
    | none => { nodeName := "", hostIP := "", podIP := "", podName := "" }
  let rt := if rt.nodeName = "" ∧ pod.nodeName ≠ "" then { rt with nodeName := pod.nodeName } else rt
  let rt := if rt.hostIP = "" ∧ pod.hostIP ≠ "" then { rt with hostIP := pod.hostIP } else rt
  let rt := if rt.podIP = "" ∧ pod.podIP ≠ "" then { rt with podIP := pod.podIP } else rt
  let rt := if rt.podName = "" ∧ pod.name ≠ "" then { rt with podName := pod.name } else rt
  { ws with status := { ws.status with runtime := some rt } }

/-- Lines 190–203 of the source: apply the phase override returned by
`extractFailure`, then commit the `Failed` condition unless one with
status `True` is already present (workspaces can fail only once). -/
def applyFailure (now : Int) (ws : Workspace) (fp : String × Option String) : Workspace :=
  let ws := match fp.2 with
    | some p => setPhase ws p
    | none => ws
  if fp.1 ≠ "" ∧ ¬ conditionPresentAndTrue ws.status.conditions WorkspaceConditionFailed then
    let cond : Condition :=
      { type := WorkspaceConditionFailed
        status := ConditionTrue
        lastTransitionTime := now
        message := fp.1
        reason := "" }
    setConditions ws (AddUniqueCondition ws.status.conditions cond)
  else ws

/-- The final `switch` of `updateWorkspaceStatus` (deletion, pod phase
`Pending`/`Running`, headless terminal pod, `Unknown`, default). -/
def podSwitch (ws : Workspace) (pod : Pod) : Workspace :=
  if isPodBeingDeleted pod then
    let ws := setPhase ws WorkspacePhaseStopping
    let hasFinalizer := pod.finalizers.contains gitpodPodFinalizerName
    if hasFinalizer then
      if conditionPresentAndTrue ws.status.conditions WorkspaceConditionBackupComplete ∨
          conditionPresentAndTrue ws.status.conditions WorkspaceConditionBackupFailure ∨
          conditionWithStatusAndReson ws.status.conditions WorkspaceConditionContentReady
            false "InitializationFailure" then
        setPhase ws WorkspacePhaseStopped
      else ws
    else
      -- pods only get their finalizer once they're running; without it,
      -- stop independently of the disposal status
      setPhase ws WorkspacePhaseStopped
  else if pod.phase = PodPending then
    let creating := pod.containerStatuses.any (fun cs =>
      match cs.state.waiting with
      | some w =>
          w.reason == "ContainerCreating" || w.reason == "ImagePullBackOff" ||
            w.reason == "ErrImagePull"
      | none => false)
    if creating then setPhase ws WorkspacePhaseCreating
    else setPhase ws WorkspacePhasePending
  else if pod.phase = PodRunning then
    let ready := pod.containerStatuses.any (fun cs => cs.ready)
    if ready then setPhase ws WorkspacePhaseRunning
    else setPhase ws WorkspacePhaseInitializing
  else if ws.status.headless ∧ (pod.phase = PodSucceeded ∨ pod.phase = PodFailed) then
    setPhase ws WorkspacePhaseStopping
  else if pod.phase = PodUnknown then
    setPhase ws WorkspacePhaseUnknown
  else
    -- cannot determine workspace phase
    setPhase ws WorkspacePhaseUnknown

/-- `updateWorkspaceStatus`: the status-reconcile pass mapping the
(workspace, pod list) pair to the updated workspace. -/
def updateWorkspaceStatus (now : Int) (workspace : Workspace) (pods : List Pod) : Workspace :=
  match pods with
  | [] =>
      let ws := if workspace.status.phase = "" then setPhase workspace WorkspacePhasePending
        else workspace
      if ws.status.phase ≠ WorkspacePhasePending then setPhase ws WorkspacePhaseStopped
      else ws
  | [pod] =>
      let deployed : Condition :=
        { type := WorkspaceConditionDeployed
          status := ConditionTrue
          lastTransitionTime := now
          message := ""
          reason := "" }
      let ws := setConditions workspace (AddUniqueCondition workspace.status.conditions deployed)
      let ws := fillRuntime ws pod
      let fp := extractFailure ws pod
      let ws := applyFailure now ws fp
      podSwitch ws pod
  | _ =>
      -- multiple pods: report, do not alter the phase
      let cond : Condition :=
        { type := WorkspaceConditionFailed
          status := ConditionTrue
          lastTransitionTime := now
          message := "multiple pods exists - this should never happen"
          reason := "" }
      setConditions workspace (AddUniqueCondition workspace.status.conditions cond)

/-- `TimeoutReconciler` (client plumbing dropped; the configuration and
the derived reconcile interval are carried). -/
structure TimeoutReconciler where
  Config : Configuration
  reconcileInterval : Int
deriving DecidableEq, Repr

/-- `NewTimeoutReconciler`: the reconcile interval is half the heartbeat
interval. -/
def NewTimeoutReconciler (cfg : Configuration) : TimeoutReconciler :=
  { Config := cfg, reconcileInterval := cfg.heartbeatInterval / 2 }

/-- `ctrl.Result`: only `RequeueAfter` is ever set by the source (zero
value `0` means no self-requeue). -/
structure CtrlResult where
  requeueAfter : Int
deriving DecidableEq, Repr

/-- `TimeoutReconciler.Reconcile`. The fetch of the workspace is modelled
by the `fetch` argument (`none` = the `r.Get` call failed, in which case
the early return leaves `RequeueAfter` unset); the pod backing the
workspace is passed to the timeout policy. The returned workspace is the
object as persisted by `r.Client.Status().Update` (unchanged when no
condition was added). -/
def Reconcile (r : TimeoutReconciler) (now : Int) (fetch : Option Workspace)
    (pod : Pod) : Option Workspace × CtrlResult :=
  match fetch with
  | none => (none, { requeueAfter := 0 })
  | some workspace =>
      -- the deferred closure sets result.RequeueAfter on every return below
      let timedout := isWorkspaceTimedOut now workspace pod r.Config.timeouts
      if timedout = "" then
        (some workspace, { requeueAfter := r.reconcileInterval })
      else if conditionPresentAndTrue workspace.status.conditions WorkspaceConditionTimeout then
        -- already has Timeout condition, don't update
        (some workspace, { requeueAfter := r.reconcileInterval })
      else
        let cond : Condition :=
          { type := WorkspaceConditionTimeout
            status := ConditionTrue
            lastTransitionTime := now
            message := timedout
            reason := "" }
        let newConds := AddUniqueCondition workspace.status.conditions cond
        let workspace :=
          { workspace with status := { workspace.status with conditions := newConds } }
        (some workspace, { requeueAfter := r.reconcileInterval })

/-! Spec-side reference definitions (these follow the wording of the
specification, for comparison with the source embedding above) and
concrete fixtures used by witnesses and counterexamples. -/

/-- Split a character list on newlines (the separators are dropped; a
trailing empty segment is kept, so `splitLines` of `"a\nb"` is
`[[a], [b]]` and of `"a\n"` is `[[a], []]`). -/
def splitLines : List Char → List (List Char)
  | [] => [[]]
  | c :: cs =>
      let r := splitLines cs
      if c = '\n' then [] :: r
      else
        match r with
        | [] => [[c]]
        | h :: t => (c :: h) :: t

/-- Scan a list of lines, given in scan order (the list is the
terminated lines reversed, so the line nearest the end of the log comes
first), carrying the shared `(error, message)` record: a successful
parse merges the present fields into the record, and the scan stops at
the first line whose merge leaves a non-empty message, returning it
suffixed with the accumulated error when that is non-empty. -/
def scanLinesRev (parse : List Char → Option (Option String × Option String)) :
    List (List Char) → String × String → Option String
  | [], _ => none
  | l :: rest, msg =>
      match parse l with
      | none => scanLinesRev parse rest msg
      | some fields =>
          let msg := (fields.1.getD msg.1, fields.2.getD msg.2)
          if msg.2 = "" then scanLinesRev parse rest msg
          else if msg.1 = "" then some msg.2
          else some (msg.2 ++ ": " ++ msg.1)

/-- Reference extraction restricted to newline-terminated lines: scan
the newline-terminated lines of the log tail backward from the end,
threading the shared zero-initialised `(error, message)` record through
the unmarshals, and fall back to the raw input bytes when the scan
exhausts; the bytes after the last newline are never scanned. -/
def specExtractTerminatedLines (parse : List Char → Option (Option String × Option String))
    (logs : String) : String :=
  match lastNLIdx logs.data with
  | none => logs
  | some n =>
      (scanLinesRev parse (splitLines (logs.data.take n)).reverse ("", "")).getD logs

/-- The disposal gate of the deletion branch of `updateWorkspaceStatus`
(named here for the statements): `BackupComplete=True` or
`BackupFailure=True` or `ContentReady=False` with reason
`InitializationFailure`. -/
def stopGate (conds : List Condition) : Bool :=
  conditionPresentAndTrue conds WorkspaceConditionBackupComplete ||
    conditionPresentAndTrue conds WorkspaceConditionBackupFailure ||
    conditionWithStatusAndReson conds WorkspaceConditionContentReady false
      "InitializationFailure"

/-- Whether `pat` is a prefix of `l` (plain boolean scan). -/
def listHasPrefixOf : List Char → List Char → Bool
  | _, [] => true
  | [], _ :: _ => false
  | a :: as, b :: bs => a == b && listHasPrefixOf as bs

/-- Whether `pat` occurs contiguously in `l`. -/
def listHasSub : List Char → List Char → Bool
  | [], pat => pat.isEmpty
  | c :: t, pat => listHasPrefixOf (c :: t) pat || listHasSub t pat

/-- Whether `pat` occurs as a substring of `s`. -/
def strContains (s pat : String) : Bool :=
  listHasSub s.data pat.data

/-- Fixture: a timeout configuration with `Initialization` 30m,
`TotalStartup`/`RegularWorkspace`/`HeadlessWorkspace`/`Stopping`/
`ContentFinalization` 1h, `AfterClose` 20m, `MaxLifetime` 24h. -/
def baseTimeouts : WorkspaceTimeoutConfiguration :=
  { Initialization := 1800000000000
    TotalStartup := 3600000000000
    RegularWorkspace := 3600000000000
    HeadlessWorkspace := 3600000000000
    MaxLifetime := 86400000000000
    AfterClose := 1200000000000
    Stopping := 3600000000000
    ContentFinalization := 3600000000000 }

/-- Fixture: a benign running pod. -/
def basePod : Pod :=
  { name := "ws-pod"
    deletionTimestamp := none
    finalizers := []
    nodeName := ""
    phase := PodRunning
    reason := ""
    message := ""
    containerStatuses := []
    hostIP := ""
    podIP := "" }

/-- Fixture: a workspace created at instant `0` in phase `Pending`, with
no conditions and no custom timeout. -/
def baseWs : Workspace :=
  { creationTimestamp := 0
    spec := { timeout := none }
    status := { phase := WorkspacePhasePending, conditions := [], runtime := none, headless := false } }

/-- Fixture (C2): a non-deleted pod in pod phase `Failed` with no
pod-level reason/message whose container terminated with exit code 1 and
a termination message whose log tail holds a `message: boom` record. -/
def c2Pod : Pod :=
  { name := "ws-pod"
    deletionTimestamp := none
    finalizers := []
    nodeName := ""
    phase := PodFailed
    reason := ""
    message := ""
    containerStatuses := [
      { name := "workspace"
        ready := false
        state := { waiting := none
                   terminated := some { exitCode := 1, reason := "", message := "\x7b\"message\":\"boom\"\x7d\n" } }
        lastTerminationState := { waiting := none, terminated := none } }]
    hostIP := ""
    podIP := "" }

/-- Fixture (C2): a running, non-headless workspace with no conditions. -/
def c2Ws : Workspace :=
  { creationTimestamp := 0
    spec := { timeout := none }
    status := { phase := WorkspacePhaseRunning, conditions := [], runtime := none, headless := false } }

/-- Fixture (C1): a workspace already carrying `Failed=True` (with an
earlier failure message) and `Timeout=True`. -/
def c1Ws : Workspace :=
  { creationTimestamp := 0
    spec := { timeout := none }
    status :=
      { phase := WorkspacePhaseRunning
        conditions :=
          [ { type := WorkspaceConditionFailed, status := ConditionTrue,
              lastTransitionTime := 5, message := "earlier failure", reason := "" },
            { type := WorkspaceConditionTimeout, status := ConditionTrue,
              lastTransitionTime := 6, message := "earlier timeout", reason := "" } ]
        runtime := none
        headless := false } }

/-- Fixture (C3): a pod being deleted (deletionTimestamp set) that still
carries the disposal finalizer. -/
def c3PodFinalizer : Pod :=
  { basePod with deletionTimestamp := some 50, finalizers := [gitpodPodFinalizerName] }

/-- Fixture (C7): a headless running workspace with a 1-minute custom
timeout override. -/
def c7Ws : Workspace :=
  { creationTimestamp := 0
    spec := { timeout := some 60000000000 }
    status := { phase := WorkspacePhaseRunning, conditions := [], runtime := none, headless := true } }

/-- Fixture (C10): a running, non-headless workspace with `Closed=True`,
a custom timeout override, and no `UserActivity` condition. -/
def c10Ws : Workspace :=
  { creationTimestamp := 0
    spec := { timeout := some 60000000000 }
    status :=
      { phase := WorkspacePhaseRunning
        conditions :=
          [ { type := WorkspaceConditionClosed, status := ConditionTrue,
              lastTransitionTime := 10, message := "", reason := "" } ]
        runtime := none
        headless := false } }



/-! Helper lemmas. -/

theorem timeoutDecide_pos (now start timeout : Int) (act : String)
    (h : timeout ≤ now - start) :
    timeoutDecide now start timeout act =
      "workspace timed out after " ++ act ++ " (" ++ formatDuration (now - start) ++
        ") took longer than " ++ formatDuration timeout := by
  unfold timeoutDecide
  rw [if_neg (by omega)]

theorem timeoutDecide_ne_empty (now start timeout : Int) (act : String)
    (h : timeout ≤ now - start) :
    timeoutDecide now start timeout act ≠ "" := by
  rw [timeoutDecide_pos now start timeout act h]
  intro hh
  have hl := congrArg String.length hh
  simp only [String.length_append] at hl
  have h1 : 0 < ("workspace timed out after ").length := by decide
  have h0 : ("" : String).length = 0 := by decide
  rw [h0] at hl
  omega

theorem timeoutDecide_eq_empty_iff (now start timeout : Int) (act : String) :
    timeoutDecide now start timeout act = "" ↔ now - start < timeout := by
  constructor
  · intro h
    by_contra hlt
    exact timeoutDecide_ne_empty now start timeout act (by omega) h
  · intro h
    unfold timeoutDecide
    rw [if_pos (by omega)]

@[simp] theorem setPhase_phase (ws : Workspace) (p : String) :
    (setPhase ws p).status.phase = p := rfl

@[simp] theorem setPhase_conditions (ws : Workspace) (p : String) :
    (setPhase ws p).status.conditions = ws.status.conditions := rfl

@[simp] theorem setPhase_creationTimestamp (ws : Workspace) (p : String) :
    (setPhase ws p).creationTimestamp = ws.creationTimestamp := rfl

@[simp] theorem setPhase_spec (ws : Workspace) (p : String) :
    (setPhase ws p).spec = ws.spec := rfl

@[simp] theorem setPhase_headless (ws : Workspace) (p : String) :
    (setPhase ws p).status.headless = ws.status.headless := rfl

@[simp] theorem setPhase_runtime (ws : Workspace) (p : String) :
    (setPhase ws p).status.runtime = ws.status.runtime := rfl

@[simp] theorem setConditions_phase (ws : Workspace) (cs : List Condition) :
    (setConditions ws cs).status.phase = ws.status.phase := rfl

@[simp] theorem setConditions_conditions (ws : Workspace) (cs : List Condition) :
    (setConditions ws cs).status.conditions = cs := rfl

@[simp] theorem setConditions_creationTimestamp (ws : Workspace) (cs : List Condition) :
    (setConditions ws cs).creationTimestamp = ws.creationTimestamp := rfl

@[simp] theorem setConditions_spec (ws : Workspace) (cs : List Condition) :
    (setConditions ws cs).spec = ws.spec := rfl

@[simp] theorem setConditions_headless (ws : Workspace) (cs : List Condition) :
    (setConditions ws cs).status.headless = ws.status.headless := rfl

@[simp] theorem setConditions_runtime (ws : Workspace) (cs : List Condition) :
    (setConditions ws cs).status.runtime = ws.status.runtime := rfl

@[simp] theorem fillRuntime_phase (ws : Workspace) (pod : Pod) :
    (fillRuntime ws pod).status.phase = ws.status.phase := rfl

@[simp] theorem fillRuntime_conditions (ws : Workspace) (pod : Pod) :
    (fillRuntime ws pod).status.conditions = ws.status.conditions := rfl

@[simp] theorem fillRuntime_creationTimestamp (ws : Workspace) (pod : Pod) :
    (fillRuntime ws pod).creationTimestamp = ws.creationTimestamp := rfl

@[simp] theorem fillRuntime_spec (ws : Workspace) (pod : Pod) :
    (fillRuntime ws pod).spec = ws.spec := rfl

@[simp] theorem fillRuntime_headless (ws : Workspace) (pod : Pod) :
    (fillRuntime ws pod).status.headless = ws.status.headless := rfl

theorem find?_map_replace (conds : List Condition) (cond : Condition) (tpe : String)
    (h : cond.type ≠ tpe) :
    (conds.map (fun c => if c.type == cond.type then cond else c)).find?
        (fun c => c.type == tpe) =
      conds.find? (fun c => c.type == tpe) := by
  induction conds with
  | nil => rfl
  | cons c cs ih =>
      simp only [List.map_cons, List.find?_cons]
      by_cases hc : c.type == cond.type
      · rw [if_pos hc]
        have hceq : c.type = cond.type := eq_of_beq hc
        have h1 : (cond.type == tpe) = false := beq_eq_false_iff_ne.mpr h
        have h2 : (c.type == tpe) = false := by
          rw [hceq]; exact h1
        rw [h1, h2]
        exact ih
      · rw [if_neg hc]
        by_cases hct : c.type == tpe
        · rw [hct]
        · rw [Bool.eq_false_iff.mpr hct]
          exact ih

theorem find?_addUnique_ne (conds : List Condition) (cond : Condition) (tpe : String)
    (h : cond.type ≠ tpe) :
    (AddUniqueCondition conds cond).find? (fun c => c.type == tpe) =
      conds.find? (fun c => c.type == tpe) := by
  unfold AddUniqueCondition
  split
  · rfl
  · split
    · exact find?_map_replace conds cond tpe h
    · rw [List.find?_append]
      have hfalse : (cond.type == tpe) = false := beq_eq_false_iff_ne.mpr h
      have hnone : List.find? (fun c => c.type == tpe) [cond] = none := by
        simp [List.find?, hfalse]
      rw [hnone, Option.or_none]

theorem conditionPresentAndTrue_addUnique_ne (conds : List Condition) (cond : Condition)
    (tpe : String) (h : cond.type ≠ tpe) :
    conditionPresentAndTrue (AddUniqueCondition conds cond) tpe =
      conditionPresentAndTrue conds tpe := by
  unfold conditionPresentAndTrue
  rw [find?_addUnique_ne conds cond tpe h]

theorem conditionWithStatusAndReson_addUnique_ne (conds : List Condition) (cond : Condition)
    (tpe : String) (status : Bool) (reason : String) (h : cond.type ≠ tpe) :
    conditionWithStatusAndReson (AddUniqueCondition conds cond) tpe status reason =
      conditionWithStatusAndReson conds tpe status reason := by
  unfold conditionWithStatusAndReson
  rw [find?_addUnique_ne conds cond tpe h]

theorem podSwitch_conditions (ws : Workspace) (pod : Pod) :
    (podSwitch ws pod).status.conditions = ws.status.conditions := by
  unfold podSwitch
  dsimp only
  split_ifs <;> rfl

theorem podSwitch_frame (ws : Workspace) (pod : Pod) :
    (podSwitch ws pod).creationTimestamp = ws.creationTimestamp ∧
    (podSwitch ws pod).spec = ws.spec ∧
    (podSwitch ws pod).status.headless = ws.status.headless ∧
    (podSwitch ws pod).status.runtime = ws.status.runtime := by
  unfold podSwitch
  dsimp only
  split_ifs <;> exact ⟨rfl, rfl, rfl, rfl⟩

theorem applyFailure_frame (now : Int) (ws : Workspace) (fp : String × Option String) :
    (applyFailure now ws fp).creationTimestamp = ws.creationTimestamp ∧
    (applyFailure now ws fp).spec = ws.spec ∧
    (applyFailure now ws fp).status.headless = ws.status.headless ∧
    (applyFailure now ws fp).status.runtime = ws.status.runtime := by
  unfold applyFailure
  cases fp.2 <;> dsimp only <;> split_ifs <;> exact ⟨rfl, rfl, rfl, rfl⟩

theorem applyFailure_conditions_of_present (now : Int) (ws : Workspace)
    (fp : String × Option String)
    (h : conditionPresentAndTrue ws.status.conditions WorkspaceConditionFailed = true) :
    (applyFailure now ws fp).status.conditions = ws.status.conditions := by
  unfold applyFailure
  cases fp.2 <;> dsimp only <;> rw [if_neg] <;>
    first
      | rfl
      | exact fun hcontra => hcontra.2 (by simpa using h)

theorem deployed_ne_failed : WorkspaceConditionDeployed ≠ WorkspaceConditionFailed := by decide

theorem failed_ne_backupComplete : WorkspaceConditionFailed ≠ WorkspaceConditionBackupComplete := by decide

theorem updateWorkspaceStatus_find?_failed (now : Int) (ws : Workspace) (pods : List Pod)
    (hlen : pods.length ≤ 1)
    (hfail : conditionPresentAndTrue ws.status.conditions WorkspaceConditionFailed = true) :
    (updateWorkspaceStatus now ws pods).status.conditions.find?
        (fun c => c.type == WorkspaceConditionFailed) =
      ws.status.conditions.find? (fun c => c.type == WorkspaceConditionFailed) := by
  match pods with
  | [] =>
      unfold updateWorkspaceStatus
      dsimp only
      split_ifs <;> rfl
  | [pod] =>
      unfold updateWorkspaceStatus
      dsimp only
      rw [podSwitch_conditions]
      rw [applyFailure_conditions_of_present _ _ _ (by
        rw [fillRuntime_conditions, setConditions_conditions,
          conditionPresentAndTrue_addUnique_ne _ _ _ deployed_ne_failed]
        exact hfail), fillRuntime_conditions, setConditions_conditions]
      exact find?_addUnique_ne _ _ _ deployed_ne_failed
  | p1 :: p2 :: rest =>
      exfalso
      simp only [List.length_cons] at hlen
      omega

theorem reconcile_noop_of_timeout (r : TimeoutReconciler) (now : Int) (ws : Workspace)
    (pod : Pod)
    (h : conditionPresentAndTrue ws.status.conditions WorkspaceConditionTimeout = true) :
    Reconcile r now (some ws) pod = (some ws, { requeueAfter := r.reconcileInterval }) := by
  unfold Reconcile
  dsimp only
  split_ifs <;> rfl

/-- C1: for a status-reconcile pass observing at most one pod, a `Failed`
condition already present with status `True` is never overwritten,
cleared or downgraded; and a timeout-reconcile pass on a workspace
already carrying `Timeout=True` performs no condition update at all (the
workspace is returned unchanged). -/
theorem c1_monotonic_latch (now : Int) (ws : Workspace) (pods : List Pod)
    (r : TimeoutReconciler) (pod : Pod)
    (hlen : pods.length ≤ 1)
    (hfail : conditionPresentAndTrue ws.status.conditions WorkspaceConditionFailed = true)
    (htimeout : conditionPresentAndTrue ws.status.conditions WorkspaceConditionTimeout = true) :
    (updateWorkspaceStatus now ws pods).status.conditions.find?
        (fun c => c.type == WorkspaceConditionFailed) =
      ws.status.conditions.find? (fun c => c.type == WorkspaceConditionFailed) ∧
    Reconcile r now (some ws) pod = (some ws, { requeueAfter := r.reconcileInterval }) :=
  ⟨updateWorkspaceStatus_find?_failed now ws pods hlen hfail,
    reconcile_noop_of_timeout r now ws pod htimeout⟩

/-- Witness for C1 at a concrete workspace carrying `Failed=True` and
`Timeout=True`, observed with one benign pod. -/
theorem c1_monotonic_latch_witness :
    [basePod].length ≤ 1 ∧
    conditionPresentAndTrue c1Ws.status.conditions WorkspaceConditionFailed = true ∧
    conditionPresentAndTrue c1Ws.status.conditions WorkspaceConditionTimeout = true ∧
    ((updateWorkspaceStatus 100 c1Ws [basePod]).status.conditions.find?
        (fun c => c.type == WorkspaceConditionFailed) =
      c1Ws.status.conditions.find? (fun c => c.type == WorkspaceConditionFailed) ∧
      Reconcile (NewTimeoutReconciler { timeouts := baseTimeouts, heartbeatInterval := 240000000000 })
          100 (some c1Ws) basePod =
        (some c1Ws,
          { requeueAfter := (NewTimeoutReconciler
              { timeouts := baseTimeouts, heartbeatInterval := 240000000000 }).reconcileInterval })) :=
  ⟨by decide, by decide, by decide,
    c1_monotonic_latch 100 c1Ws [basePod]
      (NewTimeoutReconciler { timeouts := baseTimeouts, heartbeatInterval := 240000000000 })
      basePod (by decide) (by decide) (by decide)⟩

/-- Counterexample to C1 as stated (over the spec-modelled upsert
`AddUniqueCondition`): a pass observing two pods upserts the `Failed`
condition with the multiple-pods message, overwriting the message of the
already-present `Failed=True` condition. -/
theorem c1_multipod_overwrites_failed :
    conditionPresentAndTrue c1Ws.status.conditions WorkspaceConditionFailed = true ∧
    ((updateWorkspaceStatus 100 c1Ws [basePod, basePod]).status.conditions.find?
        (fun c => c.type == WorkspaceConditionFailed)).map (fun c => c.message) =
      some "multiple pods exists - this should never happen" ∧
    (updateWorkspaceStatus 100 c1Ws [basePod, basePod]).status.conditions.find?
        (fun c => c.type == WorkspaceConditionFailed) ≠
      c1Ws.status.conditions.find? (fun c => c.type == WorkspaceConditionFailed) := by
  refine ⟨by decide, by decide, by decide⟩

theorem failed_ne_backupFailure : WorkspaceConditionFailed ≠ WorkspaceConditionBackupFailure := by decide

theorem failed_ne_contentReady : WorkspaceConditionFailed ≠ WorkspaceConditionContentReady := by decide

theorem stopGate_addUnique_ne (conds : List Condition) (cond : Condition)
    (h1 : cond.type ≠ WorkspaceConditionBackupComplete)
    (h2 : cond.type ≠ WorkspaceConditionBackupFailure)
    (h3 : cond.type ≠ WorkspaceConditionContentReady) :
    stopGate (AddUniqueCondition conds cond) = stopGate conds := by
  unfold stopGate
  rw [conditionPresentAndTrue_addUnique_ne _ _ _ h1,
    conditionPresentAndTrue_addUnique_ne _ _ _ h2,
    conditionWithStatusAndReson_addUnique_ne _ _ _ _ _ h3]

theorem applyFailure_stopGate (now : Int) (ws : Workspace) (fp : String × Option String) :
    stopGate (applyFailure now ws fp).status.conditions = stopGate ws.status.conditions := by
  unfold applyFailure
  cases fp.2 <;> dsimp only <;> split_ifs <;>
    first
      | rfl
      | (rw [setConditions_conditions]
         exact stopGate_addUnique_ne _ _ failed_ne_backupComplete failed_ne_backupFailure
           failed_ne_contentReady)

theorem podSwitch_phase_of_deleted (ws : Workspace) (pod : Pod)
    (hdel : isPodBeingDeleted pod = true) :
    (podSwitch ws pod).status.phase =
      (if pod.finalizers.contains gitpodPodFinalizerName then
        (if stopGate ws.status.conditions then WorkspacePhaseStopped
          else WorkspacePhaseStopping)
      else WorkspacePhaseStopped) := by
  unfold podSwitch
  dsimp only
  rw [if_pos hdel]
  simp only [setPhase_conditions]
  have hgate : (conditionPresentAndTrue ws.status.conditions WorkspaceConditionBackupComplete = true ∨
      conditionPresentAndTrue ws.status.conditions WorkspaceConditionBackupFailure = true ∨
      conditionWithStatusAndReson ws.status.conditions WorkspaceConditionContentReady
        false "InitializationFailure" = true) ↔ stopGate ws.status.conditions = true := by
    simp [stopGate, Bool.or_eq_true, or_assoc]
  by_cases hf : pod.finalizers.contains gitpodPodFinalizerName = true
  · rw [if_pos hf, if_pos hf]
    by_cases hg : stopGate ws.status.conditions = true
    · rw [if_pos (hgate.mpr hg), if_pos hg]
      rfl
    · rw [if_neg (fun hc => hg (hgate.mp hc)), if_neg hg]
      rfl
  · rw [if_neg hf, if_neg hf]
    rfl

theorem deployed_ne_backupComplete : WorkspaceConditionDeployed ≠ WorkspaceConditionBackupComplete := by decide

theorem deployed_ne_backupFailure : WorkspaceConditionDeployed ≠ WorkspaceConditionBackupFailure := by decide

theorem deployed_ne_contentReady : WorkspaceConditionDeployed ≠ WorkspaceConditionContentReady := by decide

/-- C3: a status-reconcile pass over a pod whose deletionTimestamp is set
yields phase `Stopping` unless termination applies: with the disposal
finalizer present the phase becomes `Stopped` exactly when the condition
set contains `BackupComplete=True`, `BackupFailure=True`, or
`ContentReady=False` with reason `InitializationFailure`; without the
finalizer the phase becomes `Stopped` immediately, independent of those
conditions. -/
theorem c3_deletion_phase (now : Int) (ws : Workspace) (pod : Pod)
    (hdel : pod.deletionTimestamp ≠ none) :
    (updateWorkspaceStatus now ws [pod]).status.phase =
      (if pod.finalizers.contains gitpodPodFinalizerName then
        (if stopGate ws.status.conditions then WorkspacePhaseStopped
          else WorkspacePhaseStopping)
      else WorkspacePhaseStopped) := by
  have hdel' : isPodBeingDeleted pod = true := by
    unfold isPodBeingDeleted
    exact Option.isSome_iff_ne_none.mpr hdel
  unfold updateWorkspaceStatus
  dsimp only
  rw [podSwitch_phase_of_deleted _ _ hdel']
  rw [applyFailure_stopGate, fillRuntime_conditions, setConditions_conditions,
    stopGate_addUnique_ne _ _ deployed_ne_backupComplete deployed_ne_backupFailure
      deployed_ne_contentReady]

/-- Witness for C3 at a deleted pod carrying the finalizer over a
workspace with no terminal backup/content condition: the phase is
`Stopping`. -/
theorem c3_deletion_phase_witness :
    c3PodFinalizer.deletionTimestamp ≠ none ∧
    (updateWorkspaceStatus 100 baseWs [c3PodFinalizer]).status.phase =
      (if c3PodFinalizer.finalizers.contains gitpodPodFinalizerName then
        (if stopGate baseWs.status.conditions then WorkspacePhaseStopped
          else WorkspacePhaseStopping)
      else WorkspacePhaseStopped) :=
  ⟨by decide, c3_deletion_phase 100 baseWs c3PodFinalizer (by decide)⟩

/-- C9 (amended): a status-reconcile pass mutates only phase, conditions
and the runtime snapshot — creation timestamp, spec (including the custom
timeout) and headlessness are unchanged — and a timeout-reconcile pass on
a fetched workspace mutates only the condition set. -/
theorem c9_frame (now : Int) (ws : Workspace) (pods : List Pod)
    (r : TimeoutReconciler) (pod : Pod) :
    ((updateWorkspaceStatus now ws pods).creationTimestamp = ws.creationTimestamp ∧
      (updateWorkspaceStatus now ws pods).spec = ws.spec ∧
      (updateWorkspaceStatus now ws pods).status.headless = ws.status.headless) ∧
    (Reconcile r now (some ws) pod).1.map
        (fun w => (w.creationTimestamp, w.spec, w.status.headless, w.status.phase,
          w.status.runtime)) =
      some (ws.creationTimestamp, ws.spec, ws.status.headless, ws.status.phase,
        ws.status.runtime) := by
  constructor
  · match pods with
    | [] =>
        unfold updateWorkspaceStatus
        dsimp only
        split_ifs <;> exact ⟨rfl, rfl, rfl⟩
    | [pod'] =>
        unfold updateWorkspaceStatus
        dsimp only
        refine ⟨?_, ?_, ?_⟩
        · rw [(podSwitch_frame _ _).1, (applyFailure_frame _ _ _).1,
            fillRuntime_creationTimestamp, setConditions_creationTimestamp]
        · rw [(podSwitch_frame _ _).2.1, (applyFailure_frame _ _ _).2.1,
            fillRuntime_spec, setConditions_spec]
        · rw [(podSwitch_frame _ _).2.2.1, (applyFailure_frame _ _ _).2.2.1,
            fillRuntime_headless, setConditions_headless]
    | p1 :: p2 :: rest =>
        exact ⟨rfl, rfl, rfl⟩
  · unfold Reconcile
    dsimp only
    split_ifs <;> rfl

/-- Counterexample to C9 as stated: a status-reconcile pass also fills in
the runtime snapshot, so conditions and phase are not the only mutated
fields. -/
theorem c9_runtime_mutated :
    (updateWorkspaceStatus 100 baseWs [{ basePod with nodeName := "node-1" }]).status.runtime ≠
      baseWs.status.runtime := by decide

/-- C2 (evaluation at the failing input): for a single non-deleted pod
whose container terminated with exit code 1 and termination message
containing a `message: boom` log record, `extractFailure` yields the
log-extracted failure text `boom` and the phase override `Running`, the
pass commits `boom` as the `Failed` condition message, but the resulting
phase is `Unknown`, not `Running`: the final pod-phase switch overwrites
the forced phase. -/
theorem c2_forced_phase_overwritten :
    extractFailure c2Ws c2Pod = ("boom", some WorkspacePhaseRunning) ∧
    ((updateWorkspaceStatus 100 c2Ws [c2Pod]).status.conditions.find?
        (fun c => c.type == WorkspaceConditionFailed)).map (fun c => c.message) =
      some "boom" ∧
    (updateWorkspaceStatus 100 c2Ws [c2Pod]).status.phase = WorkspacePhaseUnknown ∧
    WorkspacePhaseUnknown ≠ WorkspacePhaseRunning := by
  refine ⟨by decide, by decide, by decide, by decide⟩

/-- C4: a `Running` workspace whose elapsed time since creation is at
least `MaxLifetime` gets the (non-empty) maximum-lifetime timeout reason,
regardless of activity, the `Closed` condition, headlessness or a custom
timeout override. -/
theorem c4_max_lifetime_precedence (now : Int) (ws : Workspace) (pod : Pod)
    (timeouts : WorkspaceTimeoutConfiguration)
    (hphase : ws.status.phase = WorkspacePhaseRunning)
    (helapsed : timeouts.MaxLifetime ≤ now - ws.creationTimestamp) :
    isWorkspaceTimedOut now ws pod timeouts =
      timeoutDecide now ws.creationTimestamp timeouts.MaxLifetime activityMaxLifetime ∧
    isWorkspaceTimedOut now ws pod timeouts ≠ "" := by
  have heq : isWorkspaceTimedOut now ws pod timeouts =
      timeoutDecide now ws.creationTimestamp timeouts.MaxLifetime activityMaxLifetime := by
    unfold isWorkspaceTimedOut
    rw [hphase]
    rw [if_neg (by decide), if_neg (by decide), if_neg (by decide),
      if_pos (timeoutDecide_ne_empty _ _ _ _ helapsed), if_pos rfl]
  refine ⟨heq, ?_⟩
  rw [heq]
  exact timeoutDecide_ne_empty _ _ _ _ helapsed

/-- Witness for C4: a running workspace with recent activity and a closed
condition would still time out at `MaxLifetime`. -/
theorem c4_max_lifetime_precedence_witness :
    ({ baseWs with status := { baseWs.status with phase := WorkspacePhaseRunning } } : Workspace).status.phase =
      WorkspacePhaseRunning ∧
    baseTimeouts.MaxLifetime ≤ 86400000000000 -
      ({ baseWs with status := { baseWs.status with phase := WorkspacePhaseRunning } } : Workspace).creationTimestamp ∧
    (isWorkspaceTimedOut 86400000000000
        { baseWs with status := { baseWs.status with phase := WorkspacePhaseRunning } } basePod baseTimeouts =
      timeoutDecide 86400000000000 0 baseTimeouts.MaxLifetime activityMaxLifetime ∧
    isWorkspaceTimedOut 86400000000000
        { baseWs with status := { baseWs.status with phase := WorkspacePhaseRunning } } basePod baseTimeouts ≠ "") :=
  ⟨by decide, by decide,
    c4_max_lifetime_precedence 86400000000000
      { baseWs with status := { baseWs.status with phase := WorkspacePhaseRunning } }
      basePod baseTimeouts (by decide) (by decide)⟩

/-- C5: the `decide` helper reports a timeout exactly when the elapsed
time reaches the configured duration, and then its reason embeds both
durations formatted as whole hours and minutes; a `Pending` workspace 31
minutes old with `Initialization=30m` gets a reason containing `30m` and
`31m`, and with `Initialization=45m` no timeout. -/
theorem c5_threshold_and_formatting :
    (∀ (now start timeout : Int) (act : String),
      (timeoutDecide now start timeout act = "" ↔ now - start < timeout) ∧
      (timeout ≤ now - start →
        timeoutDecide now start timeout act =
          "workspace timed out after " ++ act ++ " (" ++ formatDuration (now - start) ++
            ") took longer than " ++ formatDuration timeout)) ∧
    (isWorkspaceTimedOut 1860000000000 baseWs basePod baseTimeouts ≠ "" ∧
      strContains (isWorkspaceTimedOut 1860000000000 baseWs basePod baseTimeouts) "30m" = true ∧
      strContains (isWorkspaceTimedOut 1860000000000 baseWs basePod baseTimeouts) "31m" = true) ∧
    isWorkspaceTimedOut 1860000000000 baseWs basePod
      { baseTimeouts with Initialization := 2700000000000 } = "" := by
  refine ⟨fun now start timeout act =>
    ⟨timeoutDecide_eq_empty_iff now start timeout act,
      fun h => timeoutDecide_pos now start timeout act h⟩,
    ⟨by decide, by decide, by decide⟩, by decide⟩

/-- Witness for C5's threshold conjunct at the concrete 31-minute /
30-minute instance. -/
theorem c5_threshold_and_formatting_witness :
    timeoutDecide 1860000000000 0 1800000000000 activityInit =
      "workspace timed out after initialization (00h31m) took longer than 00h30m" := by
  have h := (c5_threshold_and_formatting.1 1860000000000 0 1800000000000 activityInit).2
    (by decide)
  rw [h]
  decide

/-- C7 (amended): a headless `Running` workspace below `MaxLifetime` is
timed out from its creation time against the custom timeout override when
one is set, and against `HeadlessWorkspace` otherwise. -/
theorem c7_headless_running (now : Int) (ws : Workspace) (pod : Pod)
    (timeouts : WorkspaceTimeoutConfiguration)
    (hphase : ws.status.phase = WorkspacePhaseRunning)
    (hheadless : ws.status.headless = true)
    (hmax : now - ws.creationTimestamp < timeouts.MaxLifetime) :
    isWorkspaceTimedOut now ws pod timeouts =
      timeoutDecide now ws.creationTimestamp
        (ws.spec.timeout.getD timeouts.HeadlessWorkspace) activityRunningHeadless := by
  unfold isWorkspaceTimedOut
  rw [hphase]
  rw [if_neg (by decide), if_neg (by decide), if_neg (by decide), if_pos rfl]
  have hmsg : timeoutDecide now ws.creationTimestamp timeouts.MaxLifetime
      activityMaxLifetime = "" :=
    (timeoutDecide_eq_empty_iff _ _ _ _).mpr hmax
  rw [if_neg (fun hc => hc hmsg), if_pos hheadless]
  cases ws.spec.timeout <;> rfl

/-- Witness for C7 (amended) at the headless workspace with a 1-minute
custom override. -/
theorem c7_headless_running_witness :
    c7Ws.status.phase = WorkspacePhaseRunning ∧
    c7Ws.status.headless = true ∧
    1800000000000 - c7Ws.creationTimestamp < baseTimeouts.MaxLifetime ∧
    isWorkspaceTimedOut 1800000000000 c7Ws basePod baseTimeouts =
      timeoutDecide 1800000000000 c7Ws.creationTimestamp
        (c7Ws.spec.timeout.getD baseTimeouts.HeadlessWorkspace) activityRunningHeadless :=
  ⟨by decide, by decide, by decide,
    c7_headless_running 1800000000000 c7Ws basePod baseTimeouts (by decide) (by decide)
      (by decide)⟩

/-- Counterexample to C7 as stated: a headless running workspace with a
1-minute custom timeout override times out after 30 minutes although its
`HeadlessWorkspace` duration (1 hour) has not elapsed — the policy does
not always use `HeadlessWorkspace`. -/
theorem c7_custom_overrides_headless :
    isWorkspaceTimedOut 1800000000000 c7Ws basePod baseTimeouts =
      "workspace timed out after running the headless workspace (00h30m) took longer than 00h01m" ∧
    1800000000000 - c7Ws.creationTimestamp < baseTimeouts.HeadlessWorkspace := by
  refine ⟨by decide, by decide⟩

/-- C10: a non-headless `Running` workspace below `MaxLifetime` with no
`UserActivity` condition is timed out against `TotalStartup` from its
creation time, whatever the `Closed` condition and the custom timeout
override say. -/
theorem c10_never_active_total_startup (now : Int) (ws : Workspace) (pod : Pod)
    (timeouts : WorkspaceTimeoutConfiguration)
    (hphase : ws.status.phase = WorkspacePhaseRunning)
    (hheadless : ws.status.headless = false)
    (hact : getWorkspaceActivity ws = none)
    (hmax : now - ws.creationTimestamp < timeouts.MaxLifetime) :
    isWorkspaceTimedOut now ws pod timeouts =
      timeoutDecide now ws.creationTimestamp timeouts.TotalStartup activityNone := by
  unfold isWorkspaceTimedOut
  rw [hphase]
  rw [if_neg (by decide), if_neg (by decide), if_neg (by decide), if_pos rfl]
  have hmsg : timeoutDecide now ws.creationTimestamp timeouts.MaxLifetime
      activityMaxLifetime = "" :=
    (timeoutDecide_eq_empty_iff _ _ _ _).mpr hmax
  rw [if_neg (fun hc => hc hmsg), if_neg (by simp [hheadless]), hact]

/-- Witness for C10 at a workspace with `Closed=True` and a 1-minute
custom override but no recorded activity: `TotalStartup` applies. -/
theorem c10_never_active_total_startup_witness :
    c10Ws.status.phase = WorkspacePhaseRunning ∧
    c10Ws.status.headless = false ∧
    getWorkspaceActivity c10Ws = none ∧
    1800000000000 - c10Ws.creationTimestamp < baseTimeouts.MaxLifetime ∧
    isWorkspaceTimedOut 1800000000000 c10Ws basePod baseTimeouts =
      timeoutDecide 1800000000000 c10Ws.creationTimestamp baseTimeouts.TotalStartup
        activityNone :=
  ⟨by decide, by decide, by decide, by decide,
    c10_never_active_total_startup 1800000000000 c10Ws basePod baseTimeouts
      (by decide) (by decide) (by decide) (by decide)⟩

/-- C8: the reconcile interval is `HeartbeatInterval / 2` (4 minutes give
exactly 2 minutes), and every reconcile pass that fetched the workspace
requeues after exactly that interval. -/
theorem c8_sampling_bound :
    (NewTimeoutReconciler { timeouts := baseTimeouts, heartbeatInterval := 240000000000 }).reconcileInterval =
      120000000000 ∧
    ∀ (cfg : Configuration) (now : Int) (ws : Workspace) (pod : Pod),
      ((Reconcile (NewTimeoutReconciler cfg) now (some ws) pod).2).requeueAfter =
        cfg.heartbeatInterval / 2 := by
  refine ⟨by decide, fun cfg now ws pod => ?_⟩
  unfold Reconcile
  dsimp only
  split_ifs <;> rfl

theorem lastNLIdx_none_not_mem : ∀ (l : List Char), lastNLIdx l = none → '\n' ∉ l := by
  intro l
  induction l with
  | nil => intro _ h; simp at h
  | cons c cs ih =>
      intro h
      simp only [lastNLIdx] at h
      cases hcs : lastNLIdx cs with
      | some i => rw [hcs] at h; simp at h
      | none =>
          rw [hcs] at h
          by_cases hc : c = '\n'
          · simp [hc] at h
          · intro hmem
            rcases List.mem_cons.mp hmem with h1 | h2
            · exact hc h1.symm
            · exact ih hcs h2

theorem lastNLIdx_some_decomp :
    ∀ (l : List Char) (n : Nat), lastNLIdx l = some n →
      l.drop n = '\n' :: l.drop (n + 1) ∧ '\n' ∉ l.drop (n + 1) := by
  intro l
  induction l with
  | nil => intro n h; simp [lastNLIdx] at h
  | cons c cs ih =>
      intro n h
      simp only [lastNLIdx] at h
      cases hcs : lastNLIdx cs with
      | some i =>
          rw [hcs] at h
          simp only [Option.some.injEq] at h
          subst h
          have := ih i hcs
          simpa using this
      | none =>
          rw [hcs] at h
          by_cases hc : c = '\n'
          · subst hc
            rw [if_pos rfl] at h
            injection h with h
            subst h
            refine ⟨by simp, by simpa using lastNLIdx_none_not_mem cs hcs⟩
          · rw [if_neg hc] at h
            exact absurd h (by simp)

theorem splitLines_ne_nil : ∀ (l : List Char), splitLines l ≠ [] := by
  intro l
  cases l with
  | nil => simp [splitLines]
  | cons c cs =>
      simp only [splitLines]
      by_cases hc : c = '\n'
      · simp [hc]
      · rw [if_neg hc]
        cases splitLines cs <;> simp

theorem splitLines_append_nl :
    ∀ (xs ys : List Char), splitLines (xs ++ '\n' :: ys) = splitLines xs ++ splitLines ys := by
  intro xs ys
  induction xs with
  | nil => simp [splitLines]
  | cons x xs ih =>
      by_cases hx : x = '\n'
      · subst hx
        simp only [List.cons_append, splitLines, List.append_eq, ih]
        simp
      · simp only [List.cons_append, splitLines, List.append_eq]
        rw [ih, if_neg hx, if_neg hx]
        cases hs : splitLines xs with
        | nil => exact absurd hs (splitLines_ne_nil xs)
        | cons h t => rfl

theorem splitLines_no_nl : ∀ (l : List Char), '\n' ∉ l → splitLines l = [l] := by
  intro l
  induction l with
  | nil => intro _; rfl
  | cons c cs ih =>
      intro h
      have hc : c ≠ '\n' := fun hh => h (by simp [hh])
      have hcs : '\n' ∉ cs := fun hh => h (by simp [hh])
      simp only [splitLines, ih hcs]
      rw [if_neg hc]

theorem extractLoopP_eq_scan (parse : List Char → Option (Option String × Option String))
    (hnl : ∀ l, parse ('\n' :: l) = parse l) (hemp : parse [] = none)
    (logs : List Char) :
    ∀ (fuel idx : Nat), idx ≤ fuel → ∀ (msg : String × String),
      extractLoopP parse logs fuel idx msg =
        (scanLinesRev parse (splitLines (logs.take idx)).reverse msg).getD
          (String.mk logs) := by
  intro fuel
  induction fuel with
  | zero =>
      intro idx hle msg
      have h0 : idx = 0 := Nat.le_zero.mp hle
      subst h0
      simp [extractLoopP, splitLines, scanLinesRev, hemp]
  | succ fuel ih =>
      intro idx hle msg
      cases hL : lastNLIdx (logs.take idx) with
      | none =>
          have hnomem := lastNLIdx_none_not_mem _ hL
          simp only [extractLoopP, hL, Option.getD_none, List.drop_zero]
          rw [splitLines_no_nl _ hnomem]
          simp only [List.reverse_cons, List.reverse_nil, List.nil_append]
          cases hp : parse (logs.take idx) with
          | none => simp [scanLinesRev, hp]
          | some fields =>
              simp only [scanLinesRev, hp]
              by_cases hm : fields.2.getD msg.2 = ""
              · rw [if_pos hm, if_pos hm]
                simp
              · rw [if_neg hm, if_neg hm]
                by_cases he : fields.1.getD msg.1 = ""
                · rw [if_pos he, if_pos he]
                  rfl
                · rw [if_neg he, if_neg he]
                  rfl
      | some n =>
          obtain ⟨hdrop, hnomem⟩ := lastNLIdx_some_decomp _ _ hL
          have hlen := lastNLIdx_lt_length _ _ hL
          have hnlt : n < idx := by
            have : (logs.take idx).length ≤ idx := by simp [List.length_take]
            omega
          simp only [extractLoopP, hL, Option.getD_some]
          rw [hdrop, hnl]
          have hsplit : splitLines (logs.take idx) =
              splitLines (logs.take n) ++ [(logs.take idx).drop (n + 1)] := by
            conv_lhs => rw [← List.take_append_drop n (logs.take idx), hdrop]
            rw [splitLines_append_nl, splitLines_no_nl _ hnomem, List.take_take,
              min_eq_left (le_of_lt hnlt)]
          rw [hsplit]
          simp only [List.reverse_append, List.reverse_cons, List.reverse_nil,
            List.nil_append, List.singleton_append]
          cases hp : parse ((logs.take idx).drop (n + 1)) with
          | none =>
              simp only [scanLinesRev, hp]
              by_cases hn : n = 0
              · subst hn
                rw [if_pos rfl]
                simp [splitLines, scanLinesRev, hemp]
              · rw [if_neg hn]
                exact ih n (by omega) msg
          | some fields =>
              simp only [scanLinesRev, hp]
              by_cases hm : fields.2.getD msg.2 = ""
              · rw [if_pos hm, if_pos hm]
                by_cases hn : n = 0
                · subst hn
                  rw [if_pos rfl]
                  simp [splitLines, scanLinesRev, hemp]
                · rw [if_neg hn]
                  exact ih n (by omega) _
              · rw [if_neg hm, if_neg hm]
                by_cases he : fields.1.getD msg.1 = ""
                · rw [if_pos he, if_pos he]
                  rfl
                · rw [if_neg he, if_neg he]
                  rfl

theorem skipWs_nl (l : List Char) : skipWs ('\n' :: l) = skipWs l := by
  simp [skipWs]

theorem parseMsgLine_nl (l : List Char) : parseMsgLine ('\n' :: l) = parseMsgLine l := by
  unfold parseMsgLine
  rw [skipWs_nl]

theorem parseMsgLine_empty : parseMsgLine [] = none := rfl

/-- C6 (amended): for every log tail, `extractFailureFromLogs` scans
exactly the newline-terminated lines backward with the shared
`(error, message)` record threaded through the unmarshals — for any line
parser that ignores a leading newline and rejects the empty line, the
index loop coincides with the reference scan over the reversed
newline-terminated lines, falling back to the raw input bytes (bytes
after the last newline are never scanned) — and on several JSON lines
whose last line holds `message "boom"`, `error "x"` the extracted
failure text is `boom: x`. -/
theorem c6_log_tail_terminated_lines :
    (∀ (parse : List Char → Option (Option String × Option String)),
      (∀ l, parse ('\n' :: l) = parse l) → parse [] = none →
      ∀ (logs : String),
        extractFailureFromLogsP parse logs = specExtractTerminatedLines parse logs) ∧
    extractFailureFromLogs "junk\n\x7b\"level\":\"info\"\x7d\n\x7b\"message\":\"boom\",\"error\":\"x\"\x7d\n" =
      "boom: x" := by
  constructor
  · intro parse hnl hemp logs
    unfold extractFailureFromLogsP specExtractTerminatedLines
    cases hL : lastNLIdx logs.data with
    | none => rfl
    | some idx =>
        dsimp only
        by_cases hidx : 0 < idx
        · rw [if_pos hidx,
            extractLoopP_eq_scan parse hnl hemp logs.data idx idx le_rfl ("", "")]
        · have h0 : idx = 0 := by omega
          subst h0
          rw [if_neg hidx]
          simp [splitLines, scanLinesRev, hemp]
  · decide

/-- Witness for C6 (amended): the equivalence applied to the modelled
JSON line parser at a concrete log tail. -/
theorem c6_log_tail_terminated_lines_witness :
    extractFailureFromLogsP parseMsgLine
        "junk\n\x7b\"level\":\"info\"\x7d\n\x7b\"message\":\"boom\",\"error\":\"x\"\x7d\n" =
      specExtractTerminatedLines parseMsgLine
        "junk\n\x7b\"level\":\"info\"\x7d\n\x7b\"message\":\"boom\",\"error\":\"x\"\x7d\n" :=
  c6_log_tail_terminated_lines.1 parseMsgLine parseMsgLine_nl parseMsgLine_empty
    "junk\n\x7b\"level\":\"info\"\x7d\n\x7b\"message\":\"boom\",\"error\":\"x\"\x7d\n"

/-- Counterexample to C6 as stated, at two inputs. First, an input
consisting of one parseable line with non-empty message but no trailing
newline is returned raw, not as the extracted message. Second, because
the scan shares one `(error, message)` record across lines and an
unmarshal leaves absent fields untouched, the error field of a
later-in-file line leaks into an earlier line's message: on
`message "a"` followed by `error "x"` the program returns `a: x`, while
the claim's per-line reading — the last parseable line with non-empty
message yields that message with that line's own error suffix — says
`a`. -/
theorem c6_unterminated_line_not_scanned :
    (parseMsgLine ("\x7b\"message\":\"boom\",\"error\":\"x\"\x7d".data) =
      some (some "x", some "boom") ∧
    extractFailureFromLogs "\x7b\"message\":\"boom\",\"error\":\"x\"\x7d" =
      "\x7b\"message\":\"boom\",\"error\":\"x\"\x7d" ∧
    extractFailureFromLogs "\x7b\"message\":\"boom\",\"error\":\"x\"\x7d" ≠ "boom: x") ∧
    (parseMsgLine ("\x7b\"error\":\"x\"\x7d".data) = some (some "x", none) ∧
    parseMsgLine ("\x7b\"message\":\"a\"\x7d".data) = some (none, some "a") ∧
    extractFailureFromLogs "\x7b\"message\":\"a\"\x7d\n\x7b\"error\":\"x\"\x7d\n" = "a: x" ∧
    extractFailureFromLogs "\x7b\"message\":\"a\"\x7d\n\x7b\"error\":\"x\"\x7d\n" ≠ "a") := by
  refine ⟨⟨by decide, by decide, by decide⟩, by decide, by decide, by decide, by decide⟩

end WsManager
